import Mathlib

/-!
Shallow embedding of the retry/wait discipline of the playwright-automation
framework (RupeshMangalam21SQE/playwright-automation-framework) and of its
API endpoint normalization, with theorems checking the natural-language
specification against the code.

The embedded code:
  * src/pages/base_page.py      -- BasePage.is_element_visible, BasePage.click_element
  * src/pages/product_page.py   -- ProductPage.add_to_cart, ProductPage.remove_from_cart
  * src/utils/config.py         -- Config.DEFAULT_TIMEOUT, MAX_RETRIES, RETRY_DELAY
  * src/utils/helpers.py        -- APIHelper abs url normalization and request methods

Exceptions raised by the Playwright library calls are modelled explicitly:
each low-level wait or click either completes or raises an error of a given
kind; the environment (the browser) chooses the outcome of every primitive
operation, one triple of outcomes per retry attempt.
-/

namespace PlaywrightFW

/-- Kind of an exception raised by a Playwright primitive:
`timeout` is playwright.sync_api.TimeoutError (transient in the spec taxonomy);
`assertionFailure` and `other` are non-transient kinds (AssertionError,
programmer errors, element errors). -/
inductive PwError where
  | timeout
  | assertionFailure
  | other
deriving DecidableEq, Repr

/-- Outcome of one Playwright primitive call: it returns normally or raises
an exception of kind `e`. -/
inductive PwOutcome where
  | ok
  | raise (e : PwError)
deriving DecidableEq, Repr

/-- Page-affecting operation issued to the browser during a run.  The
alphabet includes closing and navigating the page so that the frame theorem
(the executor never issues them) is expressible. -/
inductive PageOp where
  | locatorWaitFor (timeoutMs : Nat)
  | elementClick
  | sleepSecs (s : Nat)
  | pageClose
  | pageGoto (url : String)
deriving DecidableEq, Repr

/-- Operation that closes or navigates away the borrowed page handle. -/
def affectsTarget : PageOp → Bool
  | PageOp.pageClose => true
  | PageOp.pageGoto _ => true
  | _ => false

/-- A click operation (the mutating call of add_to_cart / remove_from_cart). -/
def isClick : PageOp → Bool
  | PageOp.elementClick => true
  | _ => false

namespace Config

/-- src/utils/config.py line 24: DEFAULT_TIMEOUT = int(os.getenv("DEFAULT_TIMEOUT", "30000")),
at its default value. -/
def DEFAULT_TIMEOUT : Nat := 30000

/-- src/utils/config.py line 48: MAX_RETRIES = int(os.getenv("MAX_RETRIES", "2")),
at its default value. -/
def MAX_RETRIES : Nat := 2

/-- src/utils/config.py line 49: RETRY_DELAY = int(os.getenv("RETRY_DELAY", "1")),
at its default value.  The retry loops in product_page.py sleep the literal 1 second. -/
def RETRY_DELAY : Nat := 1

end Config

/-- Environment behaviour of the browser for one iteration of a retry loop:
the outcome of the visibility wait inside is_element_visible, the outcome of
the wait inside click_element, and the outcome of the click itself. -/
structure AttemptEnv where
  visWait : PwOutcome
  clickWait : PwOutcome
  clickAct : PwOutcome
deriving DecidableEq, Repr

namespace BasePage

/-- BasePage.is_element_visible (src/pages/base_page.py lines 79-86): waits for
the locator to become visible inside a try block that catches every Exception;
returns True on a successful wait and False on any raised exception.  Returns
the boolean together with the page operations issued. -/
def is_element_visible (w : PwOutcome) (timeoutMs : Nat) : Bool × List PageOp :=
  match w with
  | PwOutcome.ok => (true, [PageOp.locatorWaitFor timeoutMs])
  | PwOutcome.raise _ => (false, [PageOp.locatorWaitFor timeoutMs])

/-- BasePage.click_element (src/pages/base_page.py lines 49-53): waits for the
element to be visible with the default timeout (Config.DEFAULT_TIMEOUT), then
clicks it.  Either step may raise; the raised error propagates.  Returns the
result together with the page operations issued (the click operation is issued
exactly when the wait succeeded). -/
def click_element (clickWait clickAct : PwOutcome) : Except PwError Unit × List PageOp :=
  match clickWait with
  | PwOutcome.raise e => (Except.error e, [PageOp.locatorWaitFor Config.DEFAULT_TIMEOUT])
  | PwOutcome.ok =>
    match clickAct with
    | PwOutcome.ok =>
        (Except.ok (), [PageOp.locatorWaitFor Config.DEFAULT_TIMEOUT, PageOp.elementClick])
    | PwOutcome.raise e =>
        (Except.error e, [PageOp.locatorWaitFor Config.DEFAULT_TIMEOUT, PageOp.elementClick])

end BasePage

/-- Observed result of one iteration of the retry loop body of
ProductPage.add_to_cart / remove_from_cart:
`succeeded` - the button was visible and the click completed (the loop returns);
`notVisible` - is_element_visible returned False (the if guard fails, no sleep);
`caughtTimeout` - click_element raised PlaywrightTimeoutError (caught, sleep);
`raised e` - click_element raised a non-timeout error (propagates). -/
inductive AttemptResult where
  | succeeded
  | notVisible
  | caughtTimeout
  | raised (e : PwError)
deriving DecidableEq, Repr

/-- One iteration of the try block of the retry loops in product_page.py:
`if self.is_element_visible(BUTTON, timeout=3000): self.click_element(BUTTON); return`
under a handler that catches only PlaywrightTimeoutError. -/
def runAttempt (env : AttemptEnv) : AttemptResult × List PageOp :=
  match BasePage.is_element_visible env.visWait 3000 with
  | (false, ops) => (AttemptResult.notVisible, ops)
  | (true, ops) =>
    match BasePage.click_element env.clickWait env.clickAct with
    | (Except.ok _, ops2) => (AttemptResult.succeeded, ops ++ ops2)
    | (Except.error PwError.timeout, ops2) => (AttemptResult.caughtTimeout, ops ++ ops2)
    | (Except.error e, ops2) => (AttemptResult.raised e, ops ++ ops2)

/-- How a run of the retry loop ends:
`success` - the wrapped action returned;
`exhausted msg` - the for loop ran out of iterations and
`raise Exception(msg)` executed;
`propagated e` - an uncaught exception of kind `e` escaped the loop. -/
inductive RunResult where
  | success
  | exhausted (msg : String)
  | propagated (e : PwError)
deriving DecidableEq, Repr

/-- Instrumented trace of a run of a retry loop: number of loop iterations
entered (attempts), number of time.sleep calls executed (sleeps), the page
operations issued in order, and the final result. -/
structure Trace where
  attempts : Nat
  sleeps : Nat
  ops : List PageOp
  result : RunResult
deriving DecidableEq, Repr

/-- Number of click operations issued during the run. -/
def Trace.clicks (t : Trace) : Nat := t.ops.countP (fun op => isClick op)

/-- The retry loop of ProductPage.add_to_cart / remove_from_cart
(src/pages/product_page.py lines 43-53 and 55-65):

  for _ in range(retries):
      try:
          if self.is_element_visible(BUTTON, timeout=3000):
              self.click_element(BUTTON)
              return
      except PlaywrightTimeoutError:
          time.sleep(1)
  raise Exception(msg)

`i` is the index of the current attempt (used to query the environment),
`fuel` the number of loop iterations still allowed. -/
def retryLoop (envs : Nat → AttemptEnv) (msg : String) : Nat → Nat → Trace
  | _, 0 => ⟨0, 0, [], RunResult.exhausted msg⟩
  | i, fuel + 1 =>
    match (runAttempt (envs i)).1 with
    | AttemptResult.succeeded =>
        ⟨1, 0, (runAttempt (envs i)).2, RunResult.success⟩
    | AttemptResult.raised e =>
        ⟨1, 0, (runAttempt (envs i)).2, RunResult.propagated e⟩
    | AttemptResult.notVisible =>
        ⟨(retryLoop envs msg (i + 1) fuel).attempts + 1,
         (retryLoop envs msg (i + 1) fuel).sleeps,
         (runAttempt (envs i)).2 ++ (retryLoop envs msg (i + 1) fuel).ops,
         (retryLoop envs msg (i + 1) fuel).result⟩
    | AttemptResult.caughtTimeout =>
        ⟨(retryLoop envs msg (i + 1) fuel).attempts + 1,
         (retryLoop envs msg (i + 1) fuel).sleeps + 1,
         (runAttempt (envs i)).2
           ++ PageOp.sleepSecs Config.RETRY_DELAY :: (retryLoop envs msg (i + 1) fuel).ops,
         (retryLoop envs msg (i + 1) fuel).result⟩

/-- The resilient action executor of the spec: the retry loop, starting at
attempt 0, with `retries` iterations allowed and exhaustion message `msg`. -/
def executeWithRetry (envs : Nat → AttemptEnv) (retries : Nat) (msg : String) : Trace :=
  retryLoop envs msg 0 retries

namespace ProductPage

/-- ProductPage.add_to_cart (src/pages/product_page.py lines 43-53):
retries = 3; the loop body acts on the add-to-cart button; on exhaustion
raises Exception with the fixed message below. -/
def add_to_cart (envs : Nat → AttemptEnv) : Trace :=
  executeWithRetry envs 3 "Failed to add product to cart"

/-- ProductPage.remove_from_cart (src/pages/product_page.py lines 55-65):
identical loop acting on the remove button, with its own fixed message. -/
def remove_from_cart (envs : Nat → AttemptEnv) : Trace :=
  executeWithRetry envs 3 "Failed to remove product from cart"

end ProductPage

/-- An attempt outcome the loop treats as transient: the guard evaluated to
false (visibility wait failed) or a PlaywrightTimeoutError was caught.  Both
let the loop continue to the next iteration. -/
def failsTransiently : AttemptResult → Bool
  | AttemptResult.notVisible => true
  | AttemptResult.caughtTimeout => true
  | _ => false

/-- Number of attempts among `fuel` consecutive attempts starting at index `i`
whose result is a caught timeout - exactly these execute time.sleep. -/
def caughtCount (envs : Nat → AttemptEnv) : Nat → Nat → Nat
  | _, 0 => 0
  | i, fuel + 1 =>
    (if (runAttempt (envs i)).1 = AttemptResult.caughtTimeout then 1 else 0)
      + caughtCount envs (i + 1) fuel

/-- If every attempt available to the loop fails transiently, the loop uses
all its fuel, sleeps once per caught timeout (including after the last
attempt), and ends by raising the exhaustion exception. -/
theorem retryLoop_allTransient (envs : Nat → AttemptEnv) (msg : String) :
    ∀ fuel i, (∀ j, j < fuel → failsTransiently (runAttempt (envs (i + j))).1 = true) →
      (retryLoop envs msg i fuel).attempts = fuel ∧
      (retryLoop envs msg i fuel).sleeps = caughtCount envs i fuel ∧
      (retryLoop envs msg i fuel).result = RunResult.exhausted msg := by
  intro fuel
  induction fuel with
  | zero => intro i _; exact ⟨rfl, rfl, rfl⟩
  | succ n ih =>
    intro i h
    have h0 : failsTransiently (runAttempt (envs i)).1 = true := by
      simpa using h 0 (by omega)
    have hrest : ∀ j, j < n → failsTransiently (runAttempt (envs (i + 1 + j))).1 = true := by
      intro j hj
      have h2 := h (j + 1) (by omega)
      have h3 : i + (j + 1) = i + 1 + j := by omega
      rw [h3] at h2
      exact h2
    obtain ⟨ha, hs, hr⟩ := ih (i + 1) hrest
    cases hA : (runAttempt (envs i)).1 with
    | succeeded => rw [hA] at h0; simp [failsTransiently] at h0
    | raised e => rw [hA] at h0; simp [failsTransiently] at h0
    | notVisible =>
      refine ⟨?_, ?_, ?_⟩ <;> simp [retryLoop, hA, caughtCount, ha, hs, hr]
    | caughtTimeout =>
      refine ⟨?_, ?_, ?_⟩ <;> simp [retryLoop, hA, caughtCount, ha, hs, hr]
      omega

/-- If the first `k` attempts fail transiently and attempt index `k` succeeds
(with `k` strictly below the fuel), the loop performs exactly `k + 1`
attempts, sleeps once per caught timeout among the first `k` attempts (so
never after the successful one), and returns success. -/
theorem retryLoop_success_at (envs : Nat → AttemptEnv) (msg : String) :
    ∀ k i fuel, k < fuel →
      (∀ j, j < k → failsTransiently (runAttempt (envs (i + j))).1 = true) →
      (runAttempt (envs (i + k))).1 = AttemptResult.succeeded →
      (retryLoop envs msg i fuel).attempts = k + 1 ∧
      (retryLoop envs msg i fuel).sleeps = caughtCount envs i k ∧
      (retryLoop envs msg i fuel).result = RunResult.success := by
  intro k
  induction k with
  | zero =>
    intro i fuel hk _ hsucc
    obtain ⟨n, rfl⟩ : ∃ n, fuel = n + 1 := ⟨fuel - 1, by omega⟩
    rw [Nat.add_zero] at hsucc
    exact ⟨by simp [retryLoop, hsucc], by simp [retryLoop, hsucc, caughtCount],
      by simp [retryLoop, hsucc]⟩
  | succ m ih =>
    intro i fuel hk h hsucc
    obtain ⟨n, rfl⟩ : ∃ n, fuel = n + 1 := ⟨fuel - 1, by omega⟩
    have h0 : failsTransiently (runAttempt (envs i)).1 = true := by
      simpa using h 0 (by omega)
    have hrest : ∀ j, j < m → failsTransiently (runAttempt (envs (i + 1 + j))).1 = true := by
      intro j hj
      have h2 := h (j + 1) (by omega)
      have h3 : i + (j + 1) = i + 1 + j := by omega
      rw [h3] at h2
      exact h2
    have hsucc2 : (runAttempt (envs (i + 1 + m))).1 = AttemptResult.succeeded := by
      have h3 : i + (m + 1) = i + 1 + m := by omega
      rw [h3] at hsucc
      exact hsucc
    obtain ⟨ha, hs, hr⟩ := ih (i + 1) n (by omega) hrest hsucc2
    cases hA : (runAttempt (envs i)).1 with
    | succeeded => rw [hA] at h0; simp [failsTransiently] at h0
    | raised e => rw [hA] at h0; simp [failsTransiently] at h0
    | notVisible =>
      refine ⟨?_, ?_, ?_⟩ <;> simp [retryLoop, hA, caughtCount, ha, hs, hr]
    | caughtTimeout =>
      refine ⟨?_, ?_, ?_⟩ <;> simp [retryLoop, hA, caughtCount, ha, hs, hr]
      omega

/-- The loop never enters more iterations than its fuel allows. -/
theorem retryLoop_attempts_le (envs : Nat → AttemptEnv) (msg : String) :
    ∀ fuel i, (retryLoop envs msg i fuel).attempts ≤ fuel := by
  intro fuel
  induction fuel with
  | zero => intro i; exact Nat.le_refl 0
  | succ n ih =>
    intro i
    cases hA : (runAttempt (envs i)).1 with
    | succeeded => simp [retryLoop, hA]
    | raised e => simp [retryLoop, hA]
    | notVisible =>
      have := ih (i + 1)
      simp only [retryLoop, hA]
      omega
    | caughtTimeout =>
      have := ih (i + 1)
      simp only [retryLoop, hA]
      omega

/-- Every page operation a single attempt issues is a wait or a click -
never a close and never a navigation. -/
theorem runAttempt_ops_safe (env : AttemptEnv) :
    ((runAttempt env).2.all fun op => !affectsTarget op) = true := by
  obtain ⟨v, cw, ca⟩ := env
  cases v with
  | raise e => rfl
  | ok =>
    cases cw with
    | raise e => cases e <;> rfl
    | ok =>
      cases ca with
      | ok => rfl
      | raise e => cases e <;> rfl

/-- Every page operation the whole loop issues is a wait, a click or a
sleep - never a close and never a navigation. -/
theorem retryLoop_ops_safe (envs : Nat → AttemptEnv) (msg : String) :
    ∀ fuel i, ((retryLoop envs msg i fuel).ops.all fun op => !affectsTarget op) = true := by
  intro fuel
  induction fuel with
  | zero => intro i; rfl
  | succ n ih =>
    intro i
    have h1 := runAttempt_ops_safe (envs i)
    have h2 := ih (i + 1)
    cases hA : (runAttempt (envs i)).1 with
    | succeeded =>
      simp only [retryLoop, hA]
      exact h1
    | raised e =>
      simp only [retryLoop, hA]
      exact h1
    | notVisible =>
      simp only [retryLoop, hA]
      rw [List.all_append, h1, h2]
      rfl
    | caughtTimeout =>
      simp only [retryLoop, hA]
      rw [List.all_append, h1, List.all_cons, h2]
      rfl

/-- When the visibility wait fails, is_element_visible swallows the raised
exception, the if guard is false and the attempt neither clicks, nor raises,
nor triggers the except handler: its whole effect is the single visibility
wait. -/
theorem runAttempt_notVisible (env : AttemptEnv) (h : env.visWait ≠ PwOutcome.ok) :
    runAttempt env = (AttemptResult.notVisible, [PageOp.locatorWaitFor 3000]) := by
  obtain ⟨v, cw, ca⟩ := env
  cases v with
  | ok => exact absurd rfl h
  | raise e => rfl

/-- If the visibility wait fails on every available attempt, the loop issues
no click, executes no sleep, and ends by raising the exhaustion exception. -/
theorem retryLoop_all_notVisible (envs : Nat → AttemptEnv) (msg : String) :
    ∀ fuel i, (∀ j, j < fuel → (envs (i + j)).visWait ≠ PwOutcome.ok) →
      (retryLoop envs msg i fuel).clicks = 0 ∧
      (retryLoop envs msg i fuel).sleeps = 0 ∧
      (retryLoop envs msg i fuel).result = RunResult.exhausted msg := by
  intro fuel
  induction fuel with
  | zero => intro i _; exact ⟨rfl, rfl, rfl⟩
  | succ n ih =>
    intro i h
    have h0 : (envs i).visWait ≠ PwOutcome.ok := by
      simpa using h 0 (by omega)
    have hA := runAttempt_notVisible (envs i) h0
    have hA1 : (runAttempt (envs i)).1 = AttemptResult.notVisible := by rw [hA]
    have hA2 : (runAttempt (envs i)).2 = [PageOp.locatorWaitFor 3000] := by rw [hA]
    have hrest : ∀ j, j < n → (envs (i + 1 + j)).visWait ≠ PwOutcome.ok := by
      intro j hj
      have h2 := h (j + 1) (by omega)
      have h3 : i + (j + 1) = i + 1 + j := by omega
      rw [h3] at h2
      exact h2
    obtain ⟨hc, hs, hr⟩ := ih (i + 1) hrest
    refine ⟨?_, ?_, ?_⟩
    · simp only [Trace.clicks] at hc ⊢
      simp only [retryLoop, hA1, hA2]
      rw [List.countP_append, hc]
      decide
    · simp [retryLoop, hA1, hs]
    · simp [retryLoop, hA1, hr]

namespace APIHelper

/-- APIHelper endpoint test (src/utils/helpers.py line 102):
endpoint.startswith(<slash>).  Python strings are modelled as lists of
characters. -/
def startswithSlash : List Char → Bool
  | [] => false
  | c :: _ => c == '/'

/-- APIHelper._abs_url (src/utils/helpers.py lines 100-104): if the endpoint
does not start with a slash, prepend one; return base_url + endpoint.  The
base is the value of self.base_url, set to Config.BASE_URL on construction. -/
def abs_url (base endpoint : List Char) : List Char :=
  if startswithSlash endpoint then base ++ endpoint else base ++ ('/' :: endpoint)

/-- HTTP method of a request issued through requests.Session. -/
inductive Method where
  | GET
  | POST
  | PUT
  | DELETE
deriving DecidableEq, Repr

/-- The observable target of one request issued by an APIHelper method:
the HTTP method used and the absolute URL passed to the session call. -/
structure Request where
  method : Method
  url : List Char
deriving DecidableEq, Repr

/-- APIHelper.get (src/utils/helpers.py lines 106-108):
session.get(self._abs_url(endpoint), ...). -/
def get (base endpoint : List Char) : Request := ⟨Method.GET, abs_url base endpoint⟩

/-- APIHelper.post (src/utils/helpers.py lines 110-112):
session.post(self._abs_url(endpoint), ...). -/
def post (base endpoint : List Char) : Request := ⟨Method.POST, abs_url base endpoint⟩

/-- APIHelper.put (src/utils/helpers.py lines 114-116):
session.put(self._abs_url(endpoint), ...). -/
def put (base endpoint : List Char) : Request := ⟨Method.PUT, abs_url base endpoint⟩

/-- APIHelper.delete (src/utils/helpers.py lines 118-120):
session.delete(self._abs_url(endpoint), ...). -/
def delete (base endpoint : List Char) : Request := ⟨Method.DELETE, abs_url base endpoint⟩

end APIHelper

/-- src/utils/config.py line 17: BASE_URL = os.getenv("BASE_URL",
"https://jsonplaceholder.typicode.com"), at its default value; APIHelper
sets self.base_url to this on construction. -/
def Config.BASE_URL : List Char := "https://jsonplaceholder.typicode.com".toList

/-- C1 counterexample: with the code value max_attempts = 3 and an
environment in which the click wait raises PlaywrightTimeoutError on every
attempt (an always transiently failing action), ProductPage.add_to_cart
performs 3 attempts but executes time.sleep 3 times, not 3 - 1 = 2 times:
the sleep in the except handler also runs after the final attempt, so the
claimed exactly N-1 waits is false on the code. -/
theorem C1_counterexample_sleeps_not_Nminus1 :
    (ProductPage.add_to_cart
      (fun _ => ⟨PwOutcome.ok, PwOutcome.raise PwError.timeout, PwOutcome.ok⟩)).attempts = 3 ∧
    (ProductPage.add_to_cart
      (fun _ => ⟨PwOutcome.ok, PwOutcome.raise PwError.timeout, PwOutcome.ok⟩)).sleeps = 3 ∧
    ¬ (ProductPage.add_to_cart
      (fun _ => ⟨PwOutcome.ok, PwOutcome.raise PwError.timeout, PwOutcome.ok⟩)).sleeps = 3 - 1 ∧
    (ProductPage.add_to_cart
      (fun _ => ⟨PwOutcome.ok, PwOutcome.raise PwError.timeout, PwOutcome.ok⟩)).result
      = RunResult.exhausted "Failed to add product to cart" := by
  decide

/-- C1 (amended): for every max_attempts value N, when the wrapped action
fails transiently on every attempt, the retry executor of
ProductPage.add_to_cart / remove_from_cart performs exactly N attempts and
then fails with the exhaustion exception; the backoff wait runs once after
every attempt that failed with a caught timeout - including the last
attempt - so the number of waits equals the number of caught-timeout
attempts (N when every failure is a caught click timeout, 0 when every
failure is the visibility check returning False), not N - 1. -/
theorem C1_transient_exhaustion_attempts_and_waits (envs : Nat → AttemptEnv) (N : Nat)
    (msg : String) (h : ∀ j, j < N → failsTransiently (runAttempt (envs j)).1 = true) :
    (executeWithRetry envs N msg).attempts = N ∧
    (executeWithRetry envs N msg).sleeps = caughtCount envs 0 N ∧
    (executeWithRetry envs N msg).result = RunResult.exhausted msg := by
  have hmain := retryLoop_allTransient envs msg N 0 (by simpa using h)
  simpa [executeWithRetry] using hmain

/-- C1 witness: the amended theorem applied to the concrete always-timeout
environment at N = 3. -/
theorem C1_transient_exhaustion_attempts_and_waits_witness :
    (executeWithRetry
      (fun _ => ⟨PwOutcome.ok, PwOutcome.raise PwError.timeout, PwOutcome.ok⟩) 3
      "Failed to add product to cart").attempts = 3 ∧
    (executeWithRetry
      (fun _ => ⟨PwOutcome.ok, PwOutcome.raise PwError.timeout, PwOutcome.ok⟩) 3
      "Failed to add product to cart").sleeps
      = caughtCount (fun _ => ⟨PwOutcome.ok, PwOutcome.raise PwError.timeout, PwOutcome.ok⟩) 0 3 ∧
    (executeWithRetry
      (fun _ => ⟨PwOutcome.ok, PwOutcome.raise PwError.timeout, PwOutcome.ok⟩) 3
      "Failed to add product to cart").result
      = RunResult.exhausted "Failed to add product to cart" :=
  C1_transient_exhaustion_attempts_and_waits _ 3 "Failed to add product to cart" (by decide)

/-- C2 counterexample: two exhausted runs of the executor whose attempt
counts differ (2 versus 3) and whose last transient failure kinds differ
(visibility check returned False versus caught click timeout) end with the
identical error value, the fixed Exception message of add_to_cart: the
raised error is a constant and wraps neither the last transient failure
kind nor the count of attempts made. -/
theorem C2_counterexample_error_wraps_nothing :
    (executeWithRetry
      (fun _ => ⟨PwOutcome.raise PwError.timeout, PwOutcome.ok, PwOutcome.ok⟩) 2
      "Failed to add product to cart").result
      = (executeWithRetry
          (fun _ => ⟨PwOutcome.ok, PwOutcome.raise PwError.timeout, PwOutcome.ok⟩) 3
          "Failed to add product to cart").result ∧
    (executeWithRetry
      (fun _ => ⟨PwOutcome.raise PwError.timeout, PwOutcome.ok, PwOutcome.ok⟩) 2
      "Failed to add product to cart").attempts
      ≠ (executeWithRetry
          (fun _ => ⟨PwOutcome.ok, PwOutcome.raise PwError.timeout, PwOutcome.ok⟩) 3
          "Failed to add product to cart").attempts ∧
    (runAttempt ⟨PwOutcome.raise PwError.timeout, PwOutcome.ok, PwOutcome.ok⟩).1
      ≠ (runAttempt ⟨PwOutcome.ok, PwOutcome.raise PwError.timeout, PwOutcome.ok⟩).1 := by
  decide

/-- C2 (amended): on exhaustion the retry executor raises a fixed generic
Exception whose message only names the operation and is the same value for
every environment and attempt count (so it carries neither the last
transient failure kind nor the number of attempts); transient timeouts
occurring before exhaustion are swallowed: a run that eventually succeeds
surfaces no error at all. -/
theorem C2_exhaustion_error_fixed_and_timeouts_swallowed :
    (∀ (envs : Nat → AttemptEnv) (N : Nat) (msg : String),
      (∀ j, j < N → failsTransiently (runAttempt (envs j)).1 = true) →
      (executeWithRetry envs N msg).result = RunResult.exhausted msg) ∧
    (∀ (envs envs2 : Nat → AttemptEnv) (N N2 : Nat) (msg : String),
      (∀ j, j < N → failsTransiently (runAttempt (envs j)).1 = true) →
      (∀ j, j < N2 → failsTransiently (runAttempt (envs2 j)).1 = true) →
      (executeWithRetry envs N msg).result = (executeWithRetry envs2 N2 msg).result) ∧
    (∀ (envs : Nat → AttemptEnv) (N k : Nat) (msg : String),
      k < N →
      (∀ j, j < k → failsTransiently (runAttempt (envs j)).1 = true) →
      (runAttempt (envs k)).1 = AttemptResult.succeeded →
      (executeWithRetry envs N msg).result = RunResult.success) := by
  refine ⟨?_, ?_, ?_⟩
  · intro envs N msg h
    exact (retryLoop_allTransient envs msg N 0 (by simpa using h)).2.2
  · intro envs envs2 N N2 msg h h2
    simp only [executeWithRetry]
    rw [(retryLoop_allTransient envs msg N 0 (by simpa using h)).2.2,
      (retryLoop_allTransient envs2 msg N2 0 (by simpa using h2)).2.2]
  · intro envs N k msg hk h hsucc
    exact (retryLoop_success_at envs msg k 0 N hk (by simpa using h) (by simpa using hsucc)).2.2

/-- C2 witness: the amended theorem applied at concrete inputs: part one at
the always-not-visible environment with N = 2, and part three at an
environment that times out once and then succeeds, with N = 3, k = 1. -/
theorem C2_exhaustion_error_fixed_and_timeouts_swallowed_witness :
    (executeWithRetry
      (fun _ => ⟨PwOutcome.raise PwError.timeout, PwOutcome.ok, PwOutcome.ok⟩) 2
      "Failed to add product to cart").result
      = RunResult.exhausted "Failed to add product to cart" ∧
    (executeWithRetry
      (fun i => if i = 0 then ⟨PwOutcome.ok, PwOutcome.raise PwError.timeout, PwOutcome.ok⟩
        else ⟨PwOutcome.ok, PwOutcome.ok, PwOutcome.ok⟩) 3
      "Failed to add product to cart").result = RunResult.success :=
  ⟨C2_exhaustion_error_fixed_and_timeouts_swallowed.1 _ 2 "Failed to add product to cart"
      (by decide),
   C2_exhaustion_error_fixed_and_timeouts_swallowed.2.2 _ 3 1 "Failed to add product to cart"
      (by decide) (by decide) (by decide)⟩

/-- C3: if the wrapped action fails with a non-transient error (an uncaught,
non-timeout exception such as an assertion failure) on attempt 1, the retry
executor propagates exactly that error immediately: one attempt, zero
backoff waits, for every value of max_attempts. -/
theorem C3_nontransient_propagates_immediately (envs : Nat → AttemptEnv) (N : Nat)
    (msg : String) (e : PwError) (hN : 1 ≤ N)
    (h : (runAttempt (envs 0)).1 = AttemptResult.raised e) :
    (executeWithRetry envs N msg).attempts = 1 ∧
    (executeWithRetry envs N msg).sleeps = 0 ∧
    (executeWithRetry envs N msg).result = RunResult.propagated e := by
  obtain ⟨n, rfl⟩ : ∃ n, N = n + 1 := ⟨N - 1, by omega⟩
  refine ⟨?_, ?_, ?_⟩ <;> simp [executeWithRetry, retryLoop, h]

/-- C3 witness: the theorem applied to an environment whose click raises an
assertion failure on the first attempt, with max_attempts = 5. -/
theorem C3_nontransient_propagates_immediately_witness :
    (executeWithRetry
      (fun _ => ⟨PwOutcome.ok, PwOutcome.ok, PwOutcome.raise PwError.assertionFailure⟩) 5
      "Failed to add product to cart").attempts = 1 ∧
    (executeWithRetry
      (fun _ => ⟨PwOutcome.ok, PwOutcome.ok, PwOutcome.raise PwError.assertionFailure⟩) 5
      "Failed to add product to cart").sleeps = 0 ∧
    (executeWithRetry
      (fun _ => ⟨PwOutcome.ok, PwOutcome.ok, PwOutcome.raise PwError.assertionFailure⟩) 5
      "Failed to add product to cart").result
      = RunResult.propagated PwError.assertionFailure :=
  C3_nontransient_propagates_immediately _ 5 "Failed to add product to cart"
    PwError.assertionFailure (by omega) (by decide)

/-- C4: if the first k attempts fail transiently and attempt index k
succeeds (attempt number k + 1, at most max_attempts), the executor performs
exactly k + 1 attempts, returns success, and its waits are exactly the
caught timeouts among the first k attempts - none after the successful one;
moreover in every run whatsoever the number of attempts is at most
max_attempts, so the action is never attempted after reporting success. -/
theorem C4_success_stops_retrying_and_attempts_bounded (envs : Nat → AttemptEnv)
    (N k : Nat) (msg : String) (hk : k < N)
    (hfail : ∀ j, j < k → failsTransiently (runAttempt (envs j)).1 = true)
    (hsucc : (runAttempt (envs k)).1 = AttemptResult.succeeded) :
    (executeWithRetry envs N msg).attempts = k + 1 ∧
    (executeWithRetry envs N msg).sleeps = caughtCount envs 0 k ∧
    (executeWithRetry envs N msg).result = RunResult.success ∧
    ∀ (envs2 : Nat → AttemptEnv) (N2 : Nat) (msg2 : String),
      (executeWithRetry envs2 N2 msg2).attempts ≤ N2 := by
  have hmain := retryLoop_success_at envs msg k 0 N hk (by simpa using hfail)
    (by simpa using hsucc)
  refine ⟨?_, ?_, ?_, ?_⟩
  · simpa [executeWithRetry] using hmain.1
  · simpa [executeWithRetry] using hmain.2.1
  · simpa [executeWithRetry] using hmain.2.2
  · intro envs2 N2 msg2
    exact retryLoop_attempts_le envs2 msg2 N2 0

/-- C4 witness: the theorem applied to an environment that times out once
and succeeds on the second attempt, with max_attempts = 3. -/
theorem C4_success_stops_retrying_and_attempts_bounded_witness :
    (executeWithRetry
      (fun i => if i = 0 then ⟨PwOutcome.ok, PwOutcome.raise PwError.timeout, PwOutcome.ok⟩
        else ⟨PwOutcome.ok, PwOutcome.ok, PwOutcome.ok⟩) 3
      "Failed to add product to cart").attempts = 1 + 1 ∧
    (executeWithRetry
      (fun i => if i = 0 then ⟨PwOutcome.ok, PwOutcome.raise PwError.timeout, PwOutcome.ok⟩
        else ⟨PwOutcome.ok, PwOutcome.ok, PwOutcome.ok⟩) 3
      "Failed to add product to cart").sleeps
      = caughtCount
          (fun i => if i = 0 then ⟨PwOutcome.ok, PwOutcome.raise PwError.timeout, PwOutcome.ok⟩
            else ⟨PwOutcome.ok, PwOutcome.ok, PwOutcome.ok⟩) 0 1 ∧
    (executeWithRetry
      (fun i => if i = 0 then ⟨PwOutcome.ok, PwOutcome.raise PwError.timeout, PwOutcome.ok⟩
        else ⟨PwOutcome.ok, PwOutcome.ok, PwOutcome.ok⟩) 3
      "Failed to add product to cart").result = RunResult.success ∧
    ∀ (envs2 : Nat → AttemptEnv) (N2 : Nat) (msg2 : String),
      (executeWithRetry envs2 N2 msg2).attempts ≤ N2 :=
  C4_success_stops_retrying_and_attempts_bounded _ 3 1 "Failed to add product to cart"
    (by decide) (by decide) (by decide)

/-- C6 counterexample: with max_attempts = 1 and an environment whose single
attempt fails with a caught click timeout, the executor performs one attempt
but still executes the backoff wait once before raising exhaustion: the
claim that max_attempts = 1 never invokes a backoff wait is false on the
code. -/
theorem C6_counterexample_single_attempt_still_sleeps :
    (executeWithRetry
      (fun _ => ⟨PwOutcome.ok, PwOutcome.raise PwError.timeout, PwOutcome.ok⟩) 1
      "Failed to add product to cart").attempts = 1 ∧
    (executeWithRetry
      (fun _ => ⟨PwOutcome.ok, PwOutcome.raise PwError.timeout, PwOutcome.ok⟩) 1
      "Failed to add product to cart").sleeps = 1 := by
  decide

/-- C6 (amended): max_attempts = 1 is supported and performs exactly one
attempt; the backoff wait is executed exactly once when that attempt fails
with a caught timeout (uselessly, since no retry follows) and zero times
otherwise (success, visibility check returning False, or an uncaught
error). -/
theorem C6_single_attempt_behaviour (envs : Nat → AttemptEnv) (msg : String) :
    (executeWithRetry envs 1 msg).attempts = 1 ∧
    (executeWithRetry envs 1 msg).sleeps
      = (if (runAttempt (envs 0)).1 = AttemptResult.caughtTimeout then 1 else 0) := by
  cases hA : (runAttempt (envs 0)).1 <;>
    simp [executeWithRetry, retryLoop, hA]

/-- C7: when the checked condition already indicates completion - the
product is already in the cart, so the add-to-cart button has been replaced
by the remove button and its visibility wait fails on every attempt -
ProductPage.add_to_cart performs zero underlying mutating calls: no click
operation is ever issued to the page. -/
theorem C7_postcondition_holds_zero_clicks (envs : Nat → AttemptEnv)
    (h : ∀ j, j < 3 → (envs j).visWait ≠ PwOutcome.ok) :
    (ProductPage.add_to_cart envs).clicks = 0 := by
  have hmain := retryLoop_all_notVisible envs "Failed to add product to cart" 3 0
    (by simpa using h)
  simpa [ProductPage.add_to_cart, executeWithRetry] using hmain.1

/-- C7 witness: the theorem applied to the environment in which the
add-to-cart button visibility wait times out on every attempt. -/
theorem C7_postcondition_holds_zero_clicks_witness :
    (ProductPage.add_to_cart
      (fun _ => ⟨PwOutcome.raise PwError.timeout, PwOutcome.ok, PwOutcome.ok⟩)).clicks = 0 :=
  C7_postcondition_holds_zero_clicks _ (by decide)

/-- C8: for every environment, every max_attempts value and both call sites,
every page operation the retry executor issues - including on failed
attempts and on the exhaustion path - is a locator wait, a click or a
sleep; the executor never closes the borrowed page and never navigates it
to another URL. -/
theorem C8_executor_never_closes_or_navigates (envs : Nat → AttemptEnv) (N : Nat)
    (msg : String) :
    ((executeWithRetry envs N msg).ops.all fun op => !affectsTarget op) = true :=
  retryLoop_ops_safe envs msg N 0

/-- C9: BasePage.is_element_visible is total over errors: it returns True
exactly on a successful visibility wait and False on every raised exception
of every kind, propagating nothing; consequently an attempt whose
visibility wait fails is recorded as the guard being False, and a run in
which every visibility wait fails executes no sleep (the except branch is
never entered), issues no click, and ends in exhaustion rather than a
propagated error. -/
theorem C9_is_element_visible_total_never_triggers_backoff :
    (∀ t : Nat, (BasePage.is_element_visible PwOutcome.ok t).1 = true) ∧
    (∀ (e : PwError) (t : Nat),
      (BasePage.is_element_visible (PwOutcome.raise e) t).1 = false) ∧
    (∀ (e : PwError) (cw ca : PwOutcome),
      runAttempt ⟨PwOutcome.raise e, cw, ca⟩
        = (AttemptResult.notVisible, [PageOp.locatorWaitFor 3000])) ∧
    (∀ (e : PwError) (cw ca : PwOutcome) (N : Nat) (msg : String),
      (executeWithRetry (fun _ => ⟨PwOutcome.raise e, cw, ca⟩) N msg).sleeps = 0 ∧
      (executeWithRetry (fun _ => ⟨PwOutcome.raise e, cw, ca⟩) N msg).clicks = 0 ∧
      (executeWithRetry (fun _ => ⟨PwOutcome.raise e, cw, ca⟩) N msg).result
        = RunResult.exhausted msg) := by
  refine ⟨fun t => rfl, fun e t => rfl, fun e cw ca => rfl, ?_⟩
  intro e cw ca N msg
  have hmain := retryLoop_all_notVisible (fun _ => ⟨PwOutcome.raise e, cw, ca⟩) msg N 0
    (fun j _ => by simp)
  exact ⟨hmain.2.1, hmain.1, hmain.2.2⟩

/-- C10: APIHelper address normalization: for every base URL and every
endpoint that does not start with a slash, _abs_url gives the same URL for
the endpoint with and without the leading slash, and each of the four
request methods targets the base URL concatenated with the slash-prefixed
endpoint. -/
theorem C10_abs_url_normalizes_leading_slash (base endpoint : List Char)
    (h : APIHelper.startswithSlash endpoint = false) :
    APIHelper.abs_url base endpoint = APIHelper.abs_url base ('/' :: endpoint) ∧
    (APIHelper.get base endpoint).url = base ++ ('/' :: endpoint) ∧
    (APIHelper.post base endpoint).url = base ++ ('/' :: endpoint) ∧
    (APIHelper.put base endpoint).url = base ++ ('/' :: endpoint) ∧
    (APIHelper.delete base endpoint).url = base ++ ('/' :: endpoint) := by
  have hs : APIHelper.startswithSlash ('/' :: endpoint) = true := by
    simp [APIHelper.startswithSlash]
  refine ⟨?_, ?_, ?_, ?_, ?_⟩ <;>
    simp [APIHelper.abs_url, APIHelper.get, APIHelper.post, APIHelper.put,
      APIHelper.delete, h, hs]

/-- C10 witness: the theorem applied to the default Config.BASE_URL and the
endpoint "posts" written without a leading slash. -/
theorem C10_abs_url_normalizes_leading_slash_witness :
    APIHelper.abs_url Config.BASE_URL ['p', 'o', 's', 't', 's']
      = APIHelper.abs_url Config.BASE_URL ('/' :: ['p', 'o', 's', 't', 's']) ∧
    (APIHelper.get Config.BASE_URL ['p', 'o', 's', 't', 's']).url
      = Config.BASE_URL ++ ('/' :: ['p', 'o', 's', 't', 's']) ∧
    (APIHelper.post Config.BASE_URL ['p', 'o', 's', 't', 's']).url
      = Config.BASE_URL ++ ('/' :: ['p', 'o', 's', 't', 's']) ∧
    (APIHelper.put Config.BASE_URL ['p', 'o', 's', 't', 's']).url
      = Config.BASE_URL ++ ('/' :: ['p', 'o', 's', 't', 's']) ∧
    (APIHelper.delete Config.BASE_URL ['p', 'o', 's', 't', 's']).url
      = Config.BASE_URL ++ ('/' :: ['p', 'o', 's', 't', 's']) :=
  C10_abs_url_normalizes_leading_slash Config.BASE_URL ['p', 'o', 's', 't', 's'] (by decide)

end PlaywrightFW
